import Mathlib

/-!
Shallow embedding of the beaker CLI's session and executor lifecycle
subsystems (cmd/beaker/session.go and cmd/beaker/executor_linux.go).

External collaborators (the remote scheduler API, the Docker runtime
driver, the filesystem, systemd, the OS user database) are modelled as
oracles: an environment record states the outcome of each external call,
and each command is a pure function from such an environment to the list
of side effects it performs plus its returned error. Go `error` values
are `Option String` (`none` = nil), fallible calls are `Except`.
The unbounded polling loop of `awaitSessionSchedule` is embedded with
explicit fuel; exhausted fuel is a distinguished `pending` outcome that
the Go loop never returns (it would keep polling).
-/

namespace Beaker

/-- Label containing the session ID on session containers (session.go). -/
def sessionContainerLabel : String := "beaker.org/session"

/-- Label containing a list of the GPUs assigned to the container (session.go). -/
def sessionGPULabel : String := "beaker.org/gpus"

/-- Lifecycle timestamps of a session (api.ExecutionState). Times are
abstract naturals; `none` is a null timestamp. -/
structure ExecutionState where
  scheduled : Option Nat
  started : Option Nat
  ended : Option Nat
  finalized : Option Nat
  canceled : Option Nat
deriving DecidableEq, Repr

/-- The all-null execution state, `api.ExecutionState{}` in Go. -/
def emptyExecState : ExecutionState :=
  { scheduled := none, started := none, ended := none, finalized := none, canceled := none }

/-- Concrete resource grant of a scheduled session (api.TaskLimits).
Go's float64 CPUCount is abstracted to an integer; no claim depends on it. -/
structure TaskLimits where
  gpus : List String
  cpuCount : Int
  memory : Int
deriving DecidableEq, Repr

/-- A session as fetched from the remote scheduler (api.Session). -/
structure Session where
  id : String
  name : Option String
  node : String
  state : ExecutionState
  limits : Option TaskLimits
deriving DecidableEq, Repr

/-- Partial state object sent by `Patch` (api.SessionPatch); only the
execution state is used by this subsystem. -/
structure SessionPatch where
  state : Option ExecutionState
deriving DecidableEq, Repr

/-- Go's strings.HasPrefix: the first string is a prefix of the second.
Embedded on the character lists so that concrete instances evaluate. -/
def goStartsWith (p s : String) : Bool := p.data.isPrefixOf s.data

/-- The error-handling wrapper around container attach and exec
(session.go, handleAttachErr): an error whose message begins with
"exited with code " is dropped, any other error is returned unchanged. -/
def handleAttachErr (err : Option String) : Option String :=
  match err with
  | some e => if goStartsWith "exited with code " e then none else some e
  | none => none

/-- The patch body built by `session update` (session.go,
newSessionUpdateCommand): always a fresh execution state, with the
cancellation timestamp set only under `--cancel`. -/
def sessionUpdatePatch (cancel : Bool) (t : Nat) : SessionPatch :=
  { state := some (if cancel then { emptyExecState with canceled := some t } else emptyExecState) }

/-- Remote mutations performed by `session update`. -/
inductive UpdateEffect
  | patch (p : SessionPatch)
deriving DecidableEq, Repr

/-- Body of `session update` (session.go, newSessionUpdateCommand): build
the patch, issue it unconditionally, return the Patch call's error if any. -/
def sessionUpdateRun (cancel : Bool) (t : Nat) (patchRes : Except String Session) :
    List UpdateEffect × Option String :=
  ([UpdateEffect.patch (sessionUpdatePatch cancel t)],
    match patchRes with
    | Except.error e => some e
    | Except.ok _ => none)

/-- OS identity of the invoking user (os/user.User). -/
structure OSUser where
  uid : String
  gid : String
  homeDir : String
deriving DecidableEq, Repr

/-- Runtime-level container specification (runtime.ContainerOpts), the
fields set by startSession. Mounts are (hostPath, containerPath) pairs. -/
structure ContainerOpts where
  name : String
  image : String
  command : Option (List String)
  labels : List (String × String)
  env : List (String × String)
  mounts : List (String × String)
  cpuCount : Int
  gpus : List String
  memory : Int
  interactive : Bool
  user : String
  workingDir : String
deriving DecidableEq, Repr

/-- The container specification built by startSession (session.go lines
290-332) from the scheduled session, its resource grant, the image, the
command, the invoking user, and whether /net exists on the host. -/
def buildContainerOpts (session : Session) (limits : TaskLimits) (image : String)
    (command : Option (List String)) (u : OSUser) (netExists : Bool) : ContainerOpts :=
  let labels := [(sessionContainerLabel, session.id),
                 (sessionGPULabel, String.intercalate "," limits.gpus)]
  let env := if u.homeDir = "" then [] else [("HOME", u.homeDir)]
  let mounts := (if u.homeDir = "" then [] else [(u.homeDir, u.homeDir)]) ++
    (if netExists then [("/net", "/net")] else [])
  { name := ("session-" ++ session.id).toLower
    image := image
    command := command
    labels := labels
    env := env
    mounts := mounts
    cpuCount := limits.cpuCount
    gpus := limits.gpus
    memory := limits.memory
    interactive := true
    user := u.uid ++ ":" ++ u.gid
    workingDir := u.homeDir }

/-! Scheduling waiter (session.go, awaitSessionSchedule). The remote
scheduler and the caller's context are oracles indexed by the attempt
number: `ctxDone n` says whether the context is already canceled when
iteration `n` runs its select, `fetch n` is the outcome of the n-th
session Get. The Go loop is unbounded; the embedding carries fuel and
reports `pending` when fuel runs out, an outcome the Go code never
returns (it would simply keep polling). -/

/-- Oracle view of the remote scheduler and the cancellation context
during the scheduling wait. -/
structure PollEnv where
  ctxDone : Nat → Bool
  fetch : Nat → Except String Session

/-- Outcome of the scheduling wait. -/
inductive AwaitOutcome
  | ctxCanceled
  | fetchError (e : String)
  | scheduled (s : Session)
  | pending
deriving DecidableEq, Repr

/-- The polling loop of awaitSessionSchedule, from iteration `attempt`
onward. `delay` is the timer duration (in milliseconds) armed before the
next fetch: `time.NewTimer(0)` on entry, `delay.Reset(time.Second)` after
every unscheduled poll. The returned list records, for each fetch
actually performed, the timer delay that preceded it. -/
def awaitFrom (env : PollEnv) : Nat → Nat → Nat → List Nat × AwaitOutcome
  | 0, _, _ => ([], AwaitOutcome.pending)
  | fuel+1, attempt, delay =>
    if env.ctxDone attempt then ([], AwaitOutcome.ctxCanceled)
    else
      match env.fetch attempt with
      | Except.error e => ([delay], AwaitOutcome.fetchError e)
      | Except.ok info =>
        if info.state.scheduled.isSome then ([delay], AwaitOutcome.scheduled info)
        else
          let rest := awaitFrom env fuel (attempt+1) 1000
          (delay :: rest.1, rest.2)

/-- awaitSessionSchedule (session.go lines 241-269): poll from attempt 0
with an initial timer delay of 0. -/
def awaitSessionSchedule (env : PollEnv) (fuel : Nat) : List Nat × AwaitOutcome :=
  awaitFrom env fuel 0 0

/-! Container launcher (session.go, startSession) and the create command
(session.go, newSessionCreateCommand). The steps that follow a successful
scheduling wait — user lookup, runtime construction, image pull,
container create, container start, attach — are external calls whose
outcomes are an oracle per stage. The attach stage's error is filtered
through handleAttachErr exactly as in the source. -/

/-- The external stages startSession runs after the session is scheduled,
in source order. -/
inductive LaunchStage
  | userLookup
  | runtimeInit
  | pullImage
  | createContainer
  | startContainer
  | attach
deriving DecidableEq, Repr

/-- Environment of one startSession run: the poll oracle plus fuel for
the wait, and the outcome of each post-scheduling external stage. -/
structure LaunchEnv where
  poll : PollEnv
  fuel : Nat
  stageErr : LaunchStage → Option String

/-- Result of startSession. `pending` is the fuel-exhaustion artifact of
the embedded wait; the remaining constructors partition Go's returned
error by the step that produced it (`ok` is a nil error). -/
inductive StartResult
  | awaitCanceled
  | awaitFetchError (e : String)
  | stageFailed (stage : LaunchStage) (e : String)
  | ok
  | pending
deriving DecidableEq, Repr

/-- startSession (session.go lines 271-355): wait for scheduling, then
run the launch stages in order, propagating the first failure; the
attach error goes through handleAttachErr. -/
def startSession (env : LaunchEnv) : StartResult :=
  match (awaitSessionSchedule env.poll env.fuel).2 with
  | AwaitOutcome.ctxCanceled => StartResult.awaitCanceled
  | AwaitOutcome.fetchError e => StartResult.awaitFetchError e
  | AwaitOutcome.pending => StartResult.pending
  | AwaitOutcome.scheduled _ =>
    match env.stageErr LaunchStage.userLookup with
    | some e => StartResult.stageFailed LaunchStage.userLookup e
    | none =>
      match env.stageErr LaunchStage.runtimeInit with
      | some e => StartResult.stageFailed LaunchStage.runtimeInit e
      | none =>
        match env.stageErr LaunchStage.pullImage with
        | some e => StartResult.stageFailed LaunchStage.pullImage e
        | none =>
          match env.stageErr LaunchStage.createContainer with
          | some e => StartResult.stageFailed LaunchStage.createContainer e
          | none =>
            match env.stageErr LaunchStage.startContainer with
            | some e => StartResult.stageFailed LaunchStage.startContainer e
            | none =>
              match handleAttachErr (env.stageErr LaunchStage.attach) with
              | some e => StartResult.stageFailed LaunchStage.attach e
              | none => StartResult.ok

/-- Whether startSession returned a non-nil error (`pending` is not a
return at all: the Go loop is still running). -/
def StartResult.isFailure : StartResult → Bool
  | StartResult.awaitCanceled => true
  | StartResult.awaitFetchError _ => true
  | StartResult.stageFailed _ _ => true
  | StartResult.ok => false
  | StartResult.pending => false

/-- Remote mutations performed by the create command's error path. -/
inductive CreateEffect
  | patchCancel (sessionID : String) (canceledAt : Nat)
deriving DecidableEq, Repr

/-- Error handling of the create command after CreateSession succeeded
(session.go lines 106-117): if startSession fails for any reason, patch
the session with a cancellation timestamp (on a fresh background
context) and return the error. -/
def sessionCreateLaunch (sid : String) (env : LaunchEnv) (t : Nat) :
    List CreateEffect × StartResult :=
  match startSession env with
  | StartResult.ok => ([], StartResult.ok)
  | StartResult.pending => ([], StartResult.pending)
  | r => ([CreateEffect.patchCancel sid t], r)

/-! Locating the running container of a session (session.go,
findRunningContainer), used by `session attach` and `session exec`. -/

/-- Per-container information returned by the runtime driver. -/
structure ContainerInfo where
  labels : List (String × String)
deriving DecidableEq, Repr

/-- Oracle view of the scheduler and the container runtime during
findRunningContainer: the session Get outcome, the docker runtime
constructor outcome, the container listing, and each container's Info. -/
structure FindEnv where
  getRes : Except String Session
  runtimeInitErr : Option String
  listRes : Except String (List Nat)
  infoRes : Nat → Except String ContainerInfo

/-- Calls made against the container runtime driver. -/
inductive DriverCall
  | newRuntime
  | listContainers
  | containerInfo (c : Nat)
deriving DecidableEq, Repr

/-- Result of findRunningContainer. -/
inductive FindResult
  | err (e : String)
  | found (c : Nat)
deriving DecidableEq, Repr

/-- The container scan of findRunningContainer (session.go lines
392-407): call Info on each listed container in order, abort on an Info
error, stop at the first container whose session label equals the
session ID; Go map access yields the empty string for a missing label. -/
def findLoop (sid : String) (env : FindEnv) :
    List Nat → List DriverCall → List DriverCall × FindResult
  | [], acc => (acc, FindResult.err "container not found")
  | c :: cs, acc =>
    match env.infoRes c with
    | Except.error e => (acc ++ [DriverCall.containerInfo c], FindResult.err e)
    | Except.ok info =>
      if sid = ((info.labels.lookup sessionContainerLabel).getD "") then
        (acc ++ [DriverCall.containerInfo c], FindResult.found c)
      else
        findLoop sid env cs (acc ++ [DriverCall.containerInfo c])

/-- findRunningContainer (session.go lines 367-408): fetch the session,
reject it if never started, already ended, or already finalized, and only
then construct the runtime and scan the container list. The driver-call
trace records every runtime interaction. -/
def findRunningContainer (sid : String) (env : FindEnv) :
    List DriverCall × FindResult :=
  match env.getRes with
  | Except.error e => ([], FindResult.err e)
  | Except.ok info =>
    if info.state.started = none then ([], FindResult.err "session not started")
    else if info.state.ended ≠ none then ([], FindResult.err "session already ended")
    else if info.state.finalized ≠ none then ([], FindResult.err "session already finalized")
    else
      match env.runtimeInitErr with
      | some e => ([DriverCall.newRuntime], FindResult.err e)
      | none =>
        match env.listRes with
        | Except.error e =>
          ([DriverCall.newRuntime, DriverCall.listContainers], FindResult.err e)
        | Except.ok cs =>
          findLoop sid env cs [DriverCall.newRuntime, DriverCall.listContainers]

/-! Executor lifecycle manager (cmd/beaker/executor_linux.go). The five
node-local files the commands touch are named abstractly; systemctl, the
HTTP endpoints, and the filesystem are oracles. Effects record, in
order, every systemctl invocation, every file write to one of the five
well-known paths, every removal attempt, the cleanup subprocess run, and
the warnings logged by the best-effort teardown steps. -/

/-- The five node-local filesystem targets of the executor lifecycle:
the storage directory, the token file, the systemd unit file, the
executor config file, and the executor binary. -/
inductive FsTarget
  | storage
  | token
  | systemd
  | config
  | binary
deriving DecidableEq, Repr

/-- Outcome of one os.Remove / os.RemoveAll call. `notExist` is an error
satisfying os.IsNotExist. -/
inductive RmOutcome
  | removed
  | notExist
  | failed (e : String)
deriving DecidableEq, Repr

/-- The error a removal propagates, after the `!os.IsNotExist(err)`
filter: only a genuine failure survives; success and pre-absence are
both nil. -/
def rmFatal : RmOutcome → Option String
  | RmOutcome.failed e => some e
  | RmOutcome.removed => none
  | RmOutcome.notExist => none

/-- Observable actions of the executor lifecycle commands. -/
inductive ExecEffect
  | svcDisable
  | svcStop
  | svcDaemonReload
  | svcEnable
  | svcStart
  | runCleanup
  | mkdirConfigDir
  | write (t : FsTarget)
  | attemptRemove (t : FsTarget)
  | logStopErr (e : String)
  | logCleanupErr (e : String)
deriving DecidableEq, Repr

/-- Outcomes of the systemctl invocations used by startExecutor and
stopExecutor. -/
structure SystemctlEnv where
  disableErr : Option String
  stopErr : Option String
  daemonReloadErr : Option String
  enableErr : Option String
  startErr : Option String
deriving DecidableEq, Repr

/-- stopExecutor (executor_linux.go lines 383-389): systemctl disable,
then systemctl stop, failing fast. -/
def stopExecutor (env : SystemctlEnv) : List ExecEffect × Option String :=
  match env.disableErr with
  | some e => ([ExecEffect.svcDisable], some e)
  | none =>
    match env.stopErr with
    | some e => ([ExecEffect.svcDisable, ExecEffect.svcStop], some e)
    | none => ([ExecEffect.svcDisable, ExecEffect.svcStop], none)

/-- startExecutor (executor_linux.go lines 371-381): systemctl
daemon-reload, enable, start, failing fast. -/
def startExecutor (env : SystemctlEnv) : List ExecEffect × Option String :=
  match env.daemonReloadErr with
  | some e => ([ExecEffect.svcDaemonReload], some e)
  | none =>
    match env.enableErr with
    | some e => ([ExecEffect.svcDaemonReload, ExecEffect.svcEnable], some e)
    | none =>
      match env.startErr with
      | some e =>
        ([ExecEffect.svcDaemonReload, ExecEffect.svcEnable, ExecEffect.svcStart], some e)
      | none =>
        ([ExecEffect.svcDaemonReload, ExecEffect.svcEnable, ExecEffect.svcStart], none)

/-- Outcomes of the external calls inside downloadExecutor: the version
fetch, the binary HTTP GET, the os.Create of the binary path, the body
copy, and the chmod. -/
structure DownloadEnv where
  versionRes : Except String String
  httpErr : Option String
  createErr : Option String
  copyErr : Option String
  chmodErr : Option String

/-- downloadExecutor (executor_linux.go lines 331-355): resolve the
latest version, fetch the binary, create the file at the executor binary
path, stream the body into it, mark it executable. Create, copy and
chmod each touch only the binary path. -/
def downloadExecutor (env : DownloadEnv) : List ExecEffect × Option String :=
  match env.versionRes with
  | Except.error e => ([], some e)
  | Except.ok _ =>
    match env.httpErr with
    | some e => ([], some e)
    | none =>
      match env.createErr with
      | some e => ([ExecEffect.write FsTarget.binary], some e)
      | none =>
        match env.copyErr with
        | some e =>
          ([ExecEffect.write FsTarget.binary, ExecEffect.write FsTarget.binary], some e)
        | none =>
          match env.chmodErr with
          | some e =>
            ([ExecEffect.write FsTarget.binary, ExecEffect.write FsTarget.binary,
              ExecEffect.write FsTarget.binary], some e)
          | none =>
            ([ExecEffect.write FsTarget.binary, ExecEffect.write FsTarget.binary,
              ExecEffect.write FsTarget.binary], none)

/-- The error message returned by `executor install` when the binary
already exists at its fixed path. -/
def alreadyInstalledErr : String :=
  "executor is already installed.\nRun \x22upgrade\x22 to install the latest version or run \x22uninstall\x22 before installing."

/-- Environment of one `executor install` run: whether os.Stat finds the
binary at its fixed path, the cluster Get outcome, the outcome of each
local construction step, and the oracles of the download and service
phases. -/
structure InstallEnv where
  binaryExists : Bool
  clusterRes : Except String Unit
  mkdirErr : Option String
  tokenWriteErr : Option String
  configCreateErr : Option String
  configRenderErr : Option String
  systemdCreateErr : Option String
  systemdRenderErr : Option String
  download : DownloadEnv
  sctl : SystemctlEnv

/-- Body of `executor install` (executor_linux.go lines 105-165): reject
an existing binary, validate the cluster remotely, then create the
config directory, write the token file (mode 0600), create and render
the config file, create and render the systemd unit, download the
binary, and register and start the service — failing fast at each step. -/
def installRun (env : InstallEnv) : List ExecEffect × Option String :=
  if env.binaryExists then ([], some alreadyInstalledErr)
  else
    match env.clusterRes with
    | Except.error e => ([], some e)
    | Except.ok _ =>
      match env.mkdirErr with
      | some e => ([ExecEffect.mkdirConfigDir], some e)
      | none =>
        match env.tokenWriteErr with
        | some e => ([ExecEffect.mkdirConfigDir, ExecEffect.write FsTarget.token], some e)
        | none =>
          match env.configCreateErr with
          | some e =>
            ([ExecEffect.mkdirConfigDir, ExecEffect.write FsTarget.token,
              ExecEffect.write FsTarget.config], some e)
          | none =>
            match env.configRenderErr with
            | some e =>
              ([ExecEffect.mkdirConfigDir, ExecEffect.write FsTarget.token,
                ExecEffect.write FsTarget.config, ExecEffect.write FsTarget.config], some e)
            | none =>
              match env.systemdCreateErr with
              | some e =>
                ([ExecEffect.mkdirConfigDir, ExecEffect.write FsTarget.token,
                  ExecEffect.write FsTarget.config, ExecEffect.write FsTarget.config,
                  ExecEffect.write FsTarget.systemd], some e)
              | none =>
                match env.systemdRenderErr with
                | some e =>
                  ([ExecEffect.mkdirConfigDir, ExecEffect.write FsTarget.token,
                    ExecEffect.write FsTarget.config, ExecEffect.write FsTarget.config,
                    ExecEffect.write FsTarget.systemd, ExecEffect.write FsTarget.systemd],
                    some e)
                | none =>
                  let pre := [ExecEffect.mkdirConfigDir, ExecEffect.write FsTarget.token,
                    ExecEffect.write FsTarget.config, ExecEffect.write FsTarget.config,
                    ExecEffect.write FsTarget.systemd, ExecEffect.write FsTarget.systemd]
                  let dl := downloadExecutor env.download
                  match dl.2 with
                  | some e => (pre ++ dl.1, some e)
                  | none =>
                    let st := startExecutor env.sctl
                    (pre ++ dl.1 ++ st.1, st.2)

/-- Body of `executor stop` (executor_linux.go lines 216-238): confirm,
stop the service, then run the executor's own cleanup subcommand — and
return the cleanup error if it fails. -/
def executorStopRun (confirmRes : Except String Bool) (sctl : SystemctlEnv)
    (cleanupErr : Option String) : List ExecEffect × Option String :=
  match confirmRes with
  | Except.error e => ([], some e)
  | Except.ok false => ([], none)
  | Except.ok true =>
    let r := stopExecutor sctl
    match r.2 with
    | some e => (r.1, some e)
    | none =>
      match cleanupErr with
      | some e => (r.1 ++ [ExecEffect.runCleanup], some e)
      | none => (r.1 ++ [ExecEffect.runCleanup], none)

/-- Environment of one `executor uninstall` run: the config read, the
confirmation, the stop and cleanup outcomes (logged only), and the
outcome of the removal at each of the five targets. -/
structure UninstallEnv where
  configRes : Except String String
  confirmRes : Except String Bool
  stopErr : Option String
  cleanupErr : Option String
  rm : FsTarget → RmOutcome

/-- The five sequential removals of `executor uninstall`
(executor_linux.go lines 275-293), in source order: storage directory,
token file, systemd unit file, config file, binary. Pre-absence is
tolerated at every step; a genuine failure returns immediately. -/
def uninstallRemovals (env : UninstallEnv) : List ExecEffect × Option String :=
  match rmFatal (env.rm FsTarget.storage) with
  | some e => ([ExecEffect.attemptRemove FsTarget.storage], some e)
  | none =>
    match rmFatal (env.rm FsTarget.token) with
    | some e =>
      ([ExecEffect.attemptRemove FsTarget.storage,
        ExecEffect.attemptRemove FsTarget.token], some e)
    | none =>
      match rmFatal (env.rm FsTarget.systemd) with
      | some e =>
        ([ExecEffect.attemptRemove FsTarget.storage,
          ExecEffect.attemptRemove FsTarget.token,
          ExecEffect.attemptRemove FsTarget.systemd], some e)
      | none =>
        match rmFatal (env.rm FsTarget.config) with
        | some e =>
          ([ExecEffect.attemptRemove FsTarget.storage,
            ExecEffect.attemptRemove FsTarget.token,
            ExecEffect.attemptRemove FsTarget.systemd,
            ExecEffect.attemptRemove FsTarget.config], some e)
        | none =>
          match rmFatal (env.rm FsTarget.binary) with
          | some e =>
            ([ExecEffect.attemptRemove FsTarget.storage,
              ExecEffect.attemptRemove FsTarget.token,
              ExecEffect.attemptRemove FsTarget.systemd,
              ExecEffect.attemptRemove FsTarget.config,
              ExecEffect.attemptRemove FsTarget.binary], some e)
          | none =>
            ([ExecEffect.attemptRemove FsTarget.storage,
              ExecEffect.attemptRemove FsTarget.token,
              ExecEffect.attemptRemove FsTarget.systemd,
              ExecEffect.attemptRemove FsTarget.config,
              ExecEffect.attemptRemove FsTarget.binary], none)

/-- Body of `executor uninstall` (executor_linux.go lines 247-299): read
the config, confirm, stop and clean up best-effort (failures are logged
to stderr, not returned), then run the five removals. -/
def uninstallRun (env : UninstallEnv) : List ExecEffect × Option String :=
  match env.configRes with
  | Except.error e => ([], some e)
  | Except.ok _ =>
    match env.confirmRes with
    | Except.error e => ([], some e)
    | Except.ok false => ([], none)
    | Except.ok true =>
      let stopFx := match env.stopErr with
        | some e => [ExecEffect.logStopErr e]
        | none => []
      let cleanFx := match env.cleanupErr with
        | some e => [ExecEffect.logCleanupErr e]
        | none => []
      let r := uninstallRemovals env
      (stopFx ++ cleanFx ++ r.1, r.2)

/-- Body of `executor upgrade` (executor_linux.go lines 310-327): stop
the service, replace the binary via downloadExecutor, start the service
— failing fast at each phase. -/
def executorUpgradeRun (sctl : SystemctlEnv) (dl : DownloadEnv) :
    List ExecEffect × Option String :=
  let st := stopExecutor sctl
  match st.2 with
  | some e => (st.1, some e)
  | none =>
    let d := downloadExecutor dl
    match d.2 with
    | some e => (st.1 ++ d.1, some e)
    | none =>
      let up := startExecutor sctl
      (st.1 ++ d.1 ++ up.1, up.2)

/-! Concrete environments used to exhibit behaviours at specific inputs. -/

/-- A systemctl oracle in which every invocation succeeds. -/
def sctlOk : SystemctlEnv :=
  { disableErr := none, stopErr := none, daemonReloadErr := none,
    enableErr := none, startErr := none }

/-- A download oracle in which every step succeeds. -/
def dlOk : DownloadEnv :=
  { versionRes := Except.ok "v1", httpErr := none, createErr := none,
    copyErr := none, chmodErr := none }

/-- A session none of whose lifecycle timestamps is set. -/
def unscheduledSession : Session :=
  { id := "s1", name := none, node := "n1", state := emptyExecState, limits := none }

/-- A session whose scheduled timestamp is set. -/
def schedSession : Session :=
  { id := "s1", name := none, node := "n1",
    state := { emptyExecState with scheduled := some 5 }, limits := none }

/-- A poll oracle whose context is canceled from the start. -/
def canceledPollEnv : PollEnv :=
  { ctxDone := fun _ => true, fetch := fun _ => Except.ok unscheduledSession }

/-- A launch environment whose scheduling wait is interrupted by
cancellation before any fetch observes a scheduled timestamp. -/
def canceledLaunchEnv : LaunchEnv :=
  { poll := canceledPollEnv, fuel := 1, stageErr := fun _ => none }

/-- A poll oracle that reports the session unscheduled once and
scheduled from the second fetch on, with no cancellation. -/
def quickPollEnv : PollEnv :=
  { ctxDone := fun _ => false
    fetch := fun n => if n = 0 then Except.ok unscheduledSession else Except.ok schedSession }

/-- A confirmed uninstall in which removing the storage directory fails
with a genuine error while every other removal would succeed. -/
def uninstallFailEnv : UninstallEnv :=
  { configRes := Except.ok "/var/beaker", confirmRes := Except.ok true,
    stopErr := none, cleanupErr := none,
    rm := fun t => match t with
      | FsTarget.storage => RmOutcome.failed "permission denied"
      | _ => RmOutcome.removed }

/-- A confirmed uninstall in which every target is already absent and
both the stop and the cleanup step fail. -/
def uninstallAbsentEnv : UninstallEnv :=
  { configRes := Except.ok "/var/beaker", confirmRes := Except.ok true,
    stopErr := some "stop failed", cleanupErr := some "cleanup failed",
    rm := fun _ => RmOutcome.notExist }

/-- An install invocation on a node where the executor binary already
exists at its fixed path. -/
def installBusyEnv : InstallEnv :=
  { binaryExists := true, clusterRes := Except.ok (), mkdirErr := none,
    tokenWriteErr := none, configCreateErr := none, configRenderErr := none,
    systemdCreateErr := none, systemdRenderErr := none, download := dlOk, sctl := sctlOk }

/-- An install invocation whose cluster reference the remote scheduler
rejects, on a node with no executor binary. -/
def installBadClusterEnv : InstallEnv :=
  { binaryExists := false, clusterRes := Except.error "cluster not found",
    mkdirErr := none, tokenWriteErr := none, configCreateErr := none,
    configRenderErr := none, systemdCreateErr := none, systemdRenderErr := none,
    download := dlOk, sctl := sctlOk }

/-- A session whose ended timestamp is set. -/
def endedSession : Session :=
  { id := "s1", name := none, node := "n1",
    state := { scheduled := some 1, started := some 2, ended := some 3,
               finalized := none, canceled := none }, limits := none }

/-- A find environment whose session Get returns the ended session. -/
def findEndedEnv : FindEnv :=
  { getRes := Except.ok endedSession, runtimeInitErr := none,
    listRes := Except.ok [], infoRes := fun _ => Except.error "unused" }

/-- A session used as concrete input to the container-spec builder. -/
def plainSession : Session :=
  { id := "ABC123", name := none, node := "n1",
    state := { emptyExecState with scheduled := some 1 }, limits := none }

/-- A resource grant with no GPUs. -/
def noGpuLimits : TaskLimits := { gpus := [], cpuCount := 4, memory := 1024 }

/-- A concrete invoking user. -/
def plainUser : OSUser := { uid := "1000", gid := "1000", homeDir := "/home/u" }

/-! Helper lemmas about the scheduling wait, proved once over the
generalized loop and instantiated by the claim theorems. -/

/-- The delay trace of the loop from any iteration: either no fetch
happened, or the first recorded delay is the timer value on entry and
every later one is the fixed one-second reset. -/
theorem awaitFrom_delays (env : PollEnv) :
    ∀ fuel attempt delay, (awaitFrom env fuel attempt delay).1 = [] ∨
      ∃ k, (awaitFrom env fuel attempt delay).1 = delay :: List.replicate k 1000 := by
  intro fuel
  induction fuel with
  | zero => intro attempt delay; left; rfl
  | succ n ih =>
    intro attempt delay
    unfold awaitFrom
    by_cases h : env.ctxDone attempt
    · simp [h]
    · simp only [h, if_false, Bool.false_eq_true]
      cases hf : env.fetch attempt with
      | error e => right; exact ⟨0, rfl⟩
      | ok info =>
        by_cases hs : info.state.scheduled.isSome
        · right; exact ⟨0, by simp [hs]⟩
        · simp only [hs, if_false, Bool.false_eq_true]
          rcases ih (attempt+1) 1000 with h0 | ⟨k, hk⟩
          · right; exact ⟨0, by simp [h0]⟩
          · right; exact ⟨k+1, by simp [hk, List.replicate_succ]⟩

/-- If the loop returns a scheduled session, that session was fetched at
some attempt with a non-null scheduled timestamp, and every earlier
attempt saw no cancellation and an unscheduled fetch. -/
theorem awaitFrom_scheduled_spec (env : PollEnv) :
    ∀ fuel attempt delay s, (awaitFrom env fuel attempt delay).2 = AwaitOutcome.scheduled s →
      ∃ n, attempt ≤ n ∧ env.fetch n = Except.ok s ∧ s.state.scheduled.isSome = true ∧
        ∀ m, attempt ≤ m → m < n →
          env.ctxDone m = false ∧ ∃ t, env.fetch m = Except.ok t ∧ t.state.scheduled = none := by
  intro fuel
  induction fuel with
  | zero => intro attempt delay s h; exact absurd h (by simp [awaitFrom])
  | succ k ih =>
    intro attempt delay s h
    unfold awaitFrom at h
    by_cases hc : env.ctxDone attempt
    · simp [hc] at h
    · simp only [hc, if_false, Bool.false_eq_true] at h
      cases hf : env.fetch attempt with
      | error e => rw [hf] at h; simp at h
      | ok info =>
        rw [hf] at h
        by_cases hs : info.state.scheduled.isSome
        · simp only [hs, if_true] at h
          refine ⟨attempt, le_refl _, ?_, ?_, ?_⟩
          · rw [hf]; cases h; rfl
          · cases h; exact hs
          · intro m h1 h2; omega
        · simp only [hs, if_false, Bool.false_eq_true] at h
          obtain ⟨n, hn1, hn2, hn3, hn4⟩ := ih (attempt+1) 1000 s h
          refine ⟨n, by omega, hn2, hn3, ?_⟩
          intro m h1 h2
          rcases Nat.eq_or_lt_of_le h1 with heq | hlt
          · subst heq
            refine ⟨by simpa using hc, info, hf, ?_⟩
            simpa [Option.isSome_iff_ne_none] using hs
          · exact hn4 m (by omega) h2

/-- If the loop returns a fetch error, the erroring fetch was the first
abnormal event: every earlier attempt saw no cancellation and an
unscheduled, successful fetch, and no retry followed the error. -/
theorem awaitFrom_fetchError_spec (env : PollEnv) :
    ∀ fuel attempt delay e, (awaitFrom env fuel attempt delay).2 = AwaitOutcome.fetchError e →
      ∃ n, attempt ≤ n ∧ env.fetch n = Except.error e ∧
        ∀ m, attempt ≤ m → m < n →
          env.ctxDone m = false ∧ ∃ t, env.fetch m = Except.ok t ∧ t.state.scheduled = none := by
  intro fuel
  induction fuel with
  | zero => intro attempt delay e h; exact absurd h (by simp [awaitFrom])
  | succ k ih =>
    intro attempt delay e h
    unfold awaitFrom at h
    by_cases hc : env.ctxDone attempt
    · simp [hc] at h
    · simp only [hc, if_false, Bool.false_eq_true] at h
      cases hf : env.fetch attempt with
      | error e2 =>
        rw [hf] at h
        simp at h
        refine ⟨attempt, le_refl _, ?_, ?_⟩
        · rw [hf, h]
        · intro m h1 h2; omega
      | ok info =>
        rw [hf] at h
        by_cases hs : info.state.scheduled.isSome
        · simp [hs] at h
        · simp only [hs, if_false, Bool.false_eq_true] at h
          obtain ⟨n, hn1, hn2, hn3⟩ := ih (attempt+1) 1000 e h
          refine ⟨n, by omega, hn2, ?_⟩
          intro m h1 h2
          rcases Nat.eq_or_lt_of_le h1 with heq | hlt
          · subst heq
            refine ⟨by simpa using hc, info, hf, ?_⟩
            simpa [Option.isSome_iff_ne_none] using hs
          · exact hn3 m (by omega) h2

/-- Against a scheduler that never schedules and a context that never
cancels, the loop never terminates: every fuel bound is exhausted. -/
theorem awaitFrom_pending_spec (env : PollEnv)
    (hnever : ∀ n, env.ctxDone n = false ∧
      ∃ t, env.fetch n = Except.ok t ∧ t.state.scheduled = none) :
    ∀ fuel attempt delay, (awaitFrom env fuel attempt delay).2 = AwaitOutcome.pending := by
  intro fuel
  induction fuel with
  | zero => intro attempt delay; rfl
  | succ k ih =>
    intro attempt delay
    obtain ⟨hc, t, hf, hs⟩ := hnever attempt
    unfold awaitFrom
    simp only [hc, if_false, Bool.false_eq_true, hf]
    simp [hs, ih (attempt+1) 1000]

/-! Helper lemmas about the executor lifecycle commands. -/

/-- String lowering distributes over the fixed "session-" head. -/
theorem toLower_session_append (s : String) :
    ("session-" ++ s).toLower = "session-" ++ s.toLower := by
  simp only [String.toLower, String.map_eq]
  apply String.ext
  simp only [String.data_append, List.map_append]
  congr 1

/-- stopExecutor only talks to systemctl; it writes no file. -/
theorem stopExecutor_no_write (sctl : SystemctlEnv) (t : FsTarget) :
    ExecEffect.write t ∉ (stopExecutor sctl).1 := by
  cases h1 : sctl.disableErr <;> cases h2 : sctl.stopErr <;> simp [stopExecutor, h1, h2]

/-- startExecutor only talks to systemctl; it writes no file. -/
theorem startExecutor_no_write (sctl : SystemctlEnv) (t : FsTarget) :
    ExecEffect.write t ∉ (startExecutor sctl).1 := by
  cases h1 : sctl.daemonReloadErr <;> cases h2 : sctl.enableErr <;> cases h3 : sctl.startErr <;>
    simp [startExecutor, h1, h2, h3]

/-- Every effect of downloadExecutor is a write to the binary path. -/
theorem downloadExecutor_effects (dl : DownloadEnv) :
    ∀ x ∈ (downloadExecutor dl).1, x = ExecEffect.write FsTarget.binary := by
  intro x hx
  obtain ⟨v, hh, hc, hcp, hch⟩ := dl
  cases v <;> cases hh <;> cases hc <;> cases hcp <;> cases hch <;>
    simp [downloadExecutor] at hx <;> simp [hx]

/-- A confirmed uninstall decomposes into a removal-free best-effort
preamble (the logged stop/cleanup warnings) followed by the five-step
removal sequence, whose error is the command's error. -/
theorem uninstallRun_confirmed (env : UninstallEnv) (p : String)
    (hcfg : env.configRes = Except.ok p) (hconf : env.confirmRes = Except.ok true) :
    ∃ pre, (∀ t, ExecEffect.attemptRemove t ∉ pre) ∧
      uninstallRun env = (pre ++ (uninstallRemovals env).1, (uninstallRemovals env).2) := by
  cases h1 : env.stopErr with
  | none =>
    cases h2 : env.cleanupErr with
    | none =>
      exact ⟨[], by simp, by simp [uninstallRun, hcfg, hconf, h1, h2]⟩
    | some e2 =>
      exact ⟨[ExecEffect.logCleanupErr e2], by simp,
        by simp [uninstallRun, hcfg, hconf, h1, h2]⟩
  | some e1 =>
    cases h2 : env.cleanupErr with
    | none =>
      exact ⟨[ExecEffect.logStopErr e1], by simp,
        by simp [uninstallRun, hcfg, hconf, h1, h2]⟩
    | some e2 =>
      exact ⟨[ExecEffect.logStopErr e1, ExecEffect.logCleanupErr e2], by simp,
        by simp [uninstallRun, hcfg, hconf, h1, h2]⟩

/-- When no removal genuinely fails, all five targets are attempted in
source order and the removal sequence succeeds. -/
theorem removals_all_tolerated (env : UninstallEnv)
    (h : ∀ t, rmFatal (env.rm t) = none) :
    uninstallRemovals env =
      ([ExecEffect.attemptRemove FsTarget.storage, ExecEffect.attemptRemove FsTarget.token,
        ExecEffect.attemptRemove FsTarget.systemd, ExecEffect.attemptRemove FsTarget.config,
        ExecEffect.attemptRemove FsTarget.binary], none) := by
  simp only [uninstallRemovals, h FsTarget.storage, h FsTarget.token, h FsTarget.systemd,
    h FsTarget.config, h FsTarget.binary]

/-- A genuine failure at the first removal stops the sequence there. -/
theorem removals_storage_fail (env : UninstallEnv) (e : String)
    (h : rmFatal (env.rm FsTarget.storage) = some e) :
    uninstallRemovals env = ([ExecEffect.attemptRemove FsTarget.storage], some e) := by
  simp only [uninstallRemovals, h]

/-- A genuine failure at the second removal stops the sequence there. -/
theorem removals_token_fail (env : UninstallEnv) (e : String)
    (h1 : rmFatal (env.rm FsTarget.storage) = none)
    (h2 : rmFatal (env.rm FsTarget.token) = some e) :
    uninstallRemovals env =
      ([ExecEffect.attemptRemove FsTarget.storage,
        ExecEffect.attemptRemove FsTarget.token], some e) := by
  simp only [uninstallRemovals, h1, h2]

/-- A genuine failure at the third removal stops the sequence there. -/
theorem removals_systemd_fail (env : UninstallEnv) (e : String)
    (h1 : rmFatal (env.rm FsTarget.storage) = none)
    (h2 : rmFatal (env.rm FsTarget.token) = none)
    (h3 : rmFatal (env.rm FsTarget.systemd) = some e) :
    uninstallRemovals env =
      ([ExecEffect.attemptRemove FsTarget.storage, ExecEffect.attemptRemove FsTarget.token,
        ExecEffect.attemptRemove FsTarget.systemd], some e) := by
  simp only [uninstallRemovals, h1, h2, h3]

/-- A genuine failure at the fourth removal stops the sequence there. -/
theorem removals_config_fail (env : UninstallEnv) (e : String)
    (h1 : rmFatal (env.rm FsTarget.storage) = none)
    (h2 : rmFatal (env.rm FsTarget.token) = none)
    (h3 : rmFatal (env.rm FsTarget.systemd) = none)
    (h4 : rmFatal (env.rm FsTarget.config) = some e) :
    uninstallRemovals env =
      ([ExecEffect.attemptRemove FsTarget.storage, ExecEffect.attemptRemove FsTarget.token,
        ExecEffect.attemptRemove FsTarget.systemd,
        ExecEffect.attemptRemove FsTarget.config], some e) := by
  simp only [uninstallRemovals, h1, h2, h3, h4]

/-- A genuine failure at the fifth removal stops the sequence there. -/
theorem removals_binary_fail (env : UninstallEnv) (e : String)
    (h1 : rmFatal (env.rm FsTarget.storage) = none)
    (h2 : rmFatal (env.rm FsTarget.token) = none)
    (h3 : rmFatal (env.rm FsTarget.systemd) = none)
    (h4 : rmFatal (env.rm FsTarget.config) = none)
    (h5 : rmFatal (env.rm FsTarget.binary) = some e) :
    uninstallRemovals env =
      ([ExecEffect.attemptRemove FsTarget.storage, ExecEffect.attemptRemove FsTarget.token,
        ExecEffect.attemptRemove FsTarget.systemd, ExecEffect.attemptRemove FsTarget.config,
        ExecEffect.attemptRemove FsTarget.binary], some e) := by
  simp only [uninstallRemovals, h1, h2, h3, h4, h5]

/-! Claim theorems. -/

/-- C1, counterexample: a create invocation whose scheduling wait is
interrupted by cancellation of the caller's context does issue a session
patch — the create command patches a cancellation timestamp on every
startSession failure, including a wait interrupted before any fetch
observed a scheduled timestamp. -/
theorem sessionCreate_cancel_wait_patch_counterexample :
    (awaitSessionSchedule canceledLaunchEnv.poll canceledLaunchEnv.fuel).2 =
      AwaitOutcome.ctxCanceled ∧
    sessionCreateLaunch "s1" canceledLaunchEnv 3 =
      ([CreateEffect.patchCancel "s1" 3], StartResult.awaitCanceled) ∧
    (sessionCreateLaunch "s1" canceledLaunchEnv 3).1 ≠ [] := by decide

/-- C1, amended: the create command issues the compensating cancellation
patch exactly when startSession returns an error — whether the failure is
the canceled scheduling wait, a fetch error during the wait, or a
post-scheduling launch stage; in particular cancellation during the
scheduling wait does trigger the patch. The waiter itself performs no
remote mutation: the patch is the create command's sole one. -/
theorem sessionCreate_patch_on_start_failure (sid : String) (env : LaunchEnv) (t : Nat) :
    (sessionCreateLaunch sid env t).1 =
      (if (startSession env).isFailure then [CreateEffect.patchCancel sid t] else []) ∧
    ((awaitSessionSchedule env.poll env.fuel).2 = AwaitOutcome.ctxCanceled →
      sessionCreateLaunch sid env t =
        ([CreateEffect.patchCancel sid t], StartResult.awaitCanceled)) := by
  constructor
  · cases h : startSession env <;> simp [sessionCreateLaunch, h, StartResult.isFailure]
  · intro hc
    have hs : startSession env = StartResult.awaitCanceled := by
      unfold startSession
      rw [hc]
    simp [sessionCreateLaunch, hs]

/-- C1, witness: the amended statement applied to the concrete canceled
launch environment. -/
theorem sessionCreate_patch_on_start_failure_witness :
    sessionCreateLaunch "s9" canceledLaunchEnv 7 =
      ([CreateEffect.patchCancel "s9" 7], StartResult.awaitCanceled) :=
  (sessionCreate_patch_on_start_failure "s9" canceledLaunchEnv 7).2 (by decide)

/-- C2, counterexample: the error "exited with code 1" also begins with
the fixed prefix, so handleAttachErr classifies it as success instead of
propagating it. -/
theorem handleAttachErr_code1_counterexample :
    handleAttachErr (some "exited with code 1") = none ∧
    handleAttachErr (some "exited with code 1") ≠ some "exited with code 1" := by decide

/-- C2, amended: handleAttachErr classifies every error whose message
begins with "exited with code " as success — "exited with code 130" and
"exited with code 1" alike — and propagates unchanged every error whose
message lacks that prefix; a nil error stays nil. -/
theorem handleAttachErr_prefix_policy (e : String) :
    (goStartsWith "exited with code " e = true → handleAttachErr (some e) = none) ∧
    (goStartsWith "exited with code " e = false → handleAttachErr (some e) = some e) ∧
    handleAttachErr (some "exited with code 130") = none ∧
    handleAttachErr (some "exited with code 1") = none ∧
    handleAttachErr none = none := by
  refine ⟨?_, ?_, by decide, by decide, rfl⟩
  · intro h; simp [handleAttachErr, h]
  · intro h; simp [handleAttachErr, h]

/-- C2, witness: the amended statement applied to a non-matching error. -/
theorem handleAttachErr_prefix_policy_witness :
    handleAttachErr (some "connection refused") = some "connection refused" :=
  (handleAttachErr_prefix_policy "connection refused").2.1 (by decide)

/-- C3, counterexample: a genuine (non-absence) failure removing the
storage directory makes uninstall return that error immediately; the
token, unit, config and binary removals are never attempted. -/
theorem uninstall_removal_abort_counterexample :
    uninstallRun uninstallFailEnv =
      ([ExecEffect.attemptRemove FsTarget.storage], some "permission denied") ∧
    ExecEffect.attemptRemove FsTarget.token ∉ (uninstallRun uninstallFailEnv).1 := by decide

/-- Membership helper: a removal attempt is absent from a trace built
from an attempt-free preamble and a removal list that lacks it. -/
theorem not_attempt_in_pre_append (pre rest : List ExecEffect)
    (hpre : ∀ t, ExecEffect.attemptRemove t ∉ pre) (t : FsTarget)
    (hrest : ExecEffect.attemptRemove t ∉ rest) :
    ExecEffect.attemptRemove t ∉ pre ++ rest := by
  simp only [List.mem_append]
  rintro (h | h)
  · exact hpre t h
  · exact hrest h

/-- C3, amended: in a confirmed uninstall every removal tolerates
pre-absence — when no removal genuinely fails, the effect trace is
exactly the five removal attempts in source order (storage, token, unit,
config, binary) after a removal-free logged preamble, and the command
succeeds, regardless of stop/cleanup failures — but a genuine failure at
any of the five removals returns that error at once: the trace stops at
the failing attempt and each of the remaining removals is not attempted. -/
theorem uninstall_removal_policy (env : UninstallEnv) (p : String)
    (hcfg : env.configRes = Except.ok p) (hconf : env.confirmRes = Except.ok true) :
    ∃ pre, (∀ t, ExecEffect.attemptRemove t ∉ pre) ∧
      ((∀ t, rmFatal (env.rm t) = none) →
        uninstallRun env =
          (pre ++ [ExecEffect.attemptRemove FsTarget.storage,
            ExecEffect.attemptRemove FsTarget.token,
            ExecEffect.attemptRemove FsTarget.systemd,
            ExecEffect.attemptRemove FsTarget.config,
            ExecEffect.attemptRemove FsTarget.binary], none)) ∧
      (∀ e, rmFatal (env.rm FsTarget.storage) = some e →
        uninstallRun env =
          (pre ++ [ExecEffect.attemptRemove FsTarget.storage], some e) ∧
        ExecEffect.attemptRemove FsTarget.token ∉ (uninstallRun env).1 ∧
        ExecEffect.attemptRemove FsTarget.systemd ∉ (uninstallRun env).1 ∧
        ExecEffect.attemptRemove FsTarget.config ∉ (uninstallRun env).1 ∧
        ExecEffect.attemptRemove FsTarget.binary ∉ (uninstallRun env).1) ∧
      (∀ e, rmFatal (env.rm FsTarget.storage) = none →
        rmFatal (env.rm FsTarget.token) = some e →
        uninstallRun env =
          (pre ++ [ExecEffect.attemptRemove FsTarget.storage,
            ExecEffect.attemptRemove FsTarget.token], some e) ∧
        ExecEffect.attemptRemove FsTarget.systemd ∉ (uninstallRun env).1 ∧
        ExecEffect.attemptRemove FsTarget.config ∉ (uninstallRun env).1 ∧
        ExecEffect.attemptRemove FsTarget.binary ∉ (uninstallRun env).1) ∧
      (∀ e, rmFatal (env.rm FsTarget.storage) = none →
        rmFatal (env.rm FsTarget.token) = none →
        rmFatal (env.rm FsTarget.systemd) = some e →
        uninstallRun env =
          (pre ++ [ExecEffect.attemptRemove FsTarget.storage,
            ExecEffect.attemptRemove FsTarget.token,
            ExecEffect.attemptRemove FsTarget.systemd], some e) ∧
        ExecEffect.attemptRemove FsTarget.config ∉ (uninstallRun env).1 ∧
        ExecEffect.attemptRemove FsTarget.binary ∉ (uninstallRun env).1) ∧
      (∀ e, rmFatal (env.rm FsTarget.storage) = none →
        rmFatal (env.rm FsTarget.token) = none →
        rmFatal (env.rm FsTarget.systemd) = none →
        rmFatal (env.rm FsTarget.config) = some e →
        uninstallRun env =
          (pre ++ [ExecEffect.attemptRemove FsTarget.storage,
            ExecEffect.attemptRemove FsTarget.token,
            ExecEffect.attemptRemove FsTarget.systemd,
            ExecEffect.attemptRemove FsTarget.config], some e) ∧
        ExecEffect.attemptRemove FsTarget.binary ∉ (uninstallRun env).1) ∧
      (∀ e, rmFatal (env.rm FsTarget.storage) = none →
        rmFatal (env.rm FsTarget.token) = none →
        rmFatal (env.rm FsTarget.systemd) = none →
        rmFatal (env.rm FsTarget.config) = none →
        rmFatal (env.rm FsTarget.binary) = some e →
        uninstallRun env =
          (pre ++ [ExecEffect.attemptRemove FsTarget.storage,
            ExecEffect.attemptRemove FsTarget.token,
            ExecEffect.attemptRemove FsTarget.systemd,
            ExecEffect.attemptRemove FsTarget.config,
            ExecEffect.attemptRemove FsTarget.binary], some e)) := by
  obtain ⟨pre, hpre, hrun⟩ := uninstallRun_confirmed env p hcfg hconf
  refine ⟨pre, hpre, ?_, ?_, ?_, ?_, ?_, ?_⟩
  · intro hall
    rw [hrun, removals_all_tolerated env hall]
  · intro e he
    have heq : uninstallRun env =
        (pre ++ [ExecEffect.attemptRemove FsTarget.storage], some e) := by
      rw [hrun, removals_storage_fail env e he]
    refine ⟨heq, ?_, ?_, ?_, ?_⟩ <;> rw [heq] <;>
      exact not_attempt_in_pre_append pre _ hpre _ (by decide)
  · intro e h1 h2
    have heq : uninstallRun env =
        (pre ++ [ExecEffect.attemptRemove FsTarget.storage,
          ExecEffect.attemptRemove FsTarget.token], some e) := by
      rw [hrun, removals_token_fail env e h1 h2]
    refine ⟨heq, ?_, ?_, ?_⟩ <;> rw [heq] <;>
      exact not_attempt_in_pre_append pre _ hpre _ (by decide)
  · intro e h1 h2 h3
    have heq : uninstallRun env =
        (pre ++ [ExecEffect.attemptRemove FsTarget.storage,
          ExecEffect.attemptRemove FsTarget.token,
          ExecEffect.attemptRemove FsTarget.systemd], some e) := by
      rw [hrun, removals_systemd_fail env e h1 h2 h3]
    refine ⟨heq, ?_, ?_⟩ <;> rw [heq] <;>
      exact not_attempt_in_pre_append pre _ hpre _ (by decide)
  · intro e h1 h2 h3 h4
    have heq : uninstallRun env =
        (pre ++ [ExecEffect.attemptRemove FsTarget.storage,
          ExecEffect.attemptRemove FsTarget.token,
          ExecEffect.attemptRemove FsTarget.systemd,
          ExecEffect.attemptRemove FsTarget.config], some e) := by
      rw [hrun, removals_config_fail env e h1 h2 h3 h4]
    refine ⟨heq, ?_⟩
    rw [heq]
    exact not_attempt_in_pre_append pre _ hpre _ (by decide)
  · intro e h1 h2 h3 h4 h5
    rw [hrun, removals_binary_fail env e h1 h2 h3 h4 h5]

/-- C3, witness: with every target already absent and both best-effort
steps failing, the confirmed uninstall succeeds and still attempts the
final removal; with a genuine storage-removal failure, the confirmed
uninstall returns that error. -/
theorem uninstall_removal_policy_witness :
    (uninstallRun uninstallAbsentEnv).2 = none ∧
    ExecEffect.attemptRemove FsTarget.binary ∈ (uninstallRun uninstallAbsentEnv).1 ∧
    (uninstallRun uninstallFailEnv).2 = some "permission denied" := by
  obtain ⟨pre1, hpre1, hall1, _⟩ :=
    uninstall_removal_policy uninstallAbsentEnv "/var/beaker" rfl rfl
  obtain ⟨pre2, hpre2, _, hstor2, _⟩ :=
    uninstall_removal_policy uninstallFailEnv "/var/beaker" rfl rfl
  have h1 := hall1 (fun t => by cases t <;> rfl)
  have h2 := (hstor2 "permission denied" rfl).1
  rw [h1, h2]
  refine ⟨rfl, ?_, rfl⟩
  simp

/-- C4, counterexample: with the confirmation given and the service stop
succeeded, a failing cleanup subcommand makes the stop command return
that error instead of success. -/
theorem executorStop_cleanup_counterexample :
    executorStopRun (Except.ok true) sctlOk (some "cleanup failed") =
      ([ExecEffect.svcDisable, ExecEffect.svcStop, ExecEffect.runCleanup],
        some "cleanup failed") ∧
    (executorStopRun (Except.ok true) sctlOk (some "cleanup failed")).2 ≠ none := by decide

/-- C4, amended: in a confirmed stop whose service-stop step succeeds, a
failure of the executor's cleanup subcommand is returned as the stop
command's error; the command succeeds only when cleanup also succeeds.
(Only in uninstall is a cleanup failure merely logged.) -/
theorem executorStop_returns_cleanup_error (sctl : SystemctlEnv) (e : String)
    (h : (stopExecutor sctl).2 = none) :
    (executorStopRun (Except.ok true) sctl (some e)).2 = some e ∧
    (executorStopRun (Except.ok true) sctl none).2 = none := by
  constructor <;> simp [executorStopRun, h]

/-- C4, witness: the amended statement at the all-success systemctl
oracle. -/
theorem executorStop_returns_cleanup_error_witness :
    (executorStopRun (Except.ok true) sctlOk (some "boom")).2 = some "boom" :=
  (executorStop_returns_cleanup_error sctlOk "boom" (by decide)).1

/-- C5: install returns the fixed already-installed error, with no
filesystem effect, whenever the binary exists at its fixed path; and with
the binary absent, an invalid cluster reference is rejected by the remote
validation before any local step, again with no filesystem effect. -/
theorem install_failfast (env : InstallEnv) :
    (env.binaryExists = true → installRun env = ([], some alreadyInstalledErr)) ∧
    (∀ e, env.binaryExists = false → env.clusterRes = Except.error e →
      installRun env = ([], some e)) := by
  constructor
  · intro h; simp [installRun, h]
  · intro e h1 h2; simp [installRun, h1, h2]

/-- C5, witness: the statement applied to the already-installed node and
to the invalid-cluster install. -/
theorem install_failfast_witness :
    installRun installBusyEnv = ([], some alreadyInstalledErr) ∧
    installRun installBadClusterEnv = ([], some "cluster not found") :=
  ⟨(install_failfast installBusyEnv).1 rfl,
    (install_failfast installBadClusterEnv).2 "cluster not found" rfl rfl⟩

/-- C6: the scheduling waiter fetches immediately (its recorded delay
trace is a zero followed by fixed one-second intervals, with no backoff,
jitter or attempt bound); a returned session is the first fetched one
with a non-null scheduled timestamp; any fetch error aborts the wait at
once with that error and no retry; and against a never-scheduling,
never-canceled oracle the loop exhausts every fuel bound — it blocks
indefinitely. -/
theorem awaitSchedule_polling_policy (env : PollEnv) :
    (∀ fuel, (awaitSessionSchedule env fuel).1 = [] ∨
      ∃ k, (awaitSessionSchedule env fuel).1 = 0 :: List.replicate k 1000) ∧
    (∀ fuel s, (awaitSessionSchedule env fuel).2 = AwaitOutcome.scheduled s →
      s.state.scheduled.isSome = true ∧
      ∃ n, env.fetch n = Except.ok s ∧
        ∀ m, m < n → env.ctxDone m = false ∧
          ∃ t, env.fetch m = Except.ok t ∧ t.state.scheduled = none) ∧
    (∀ fuel e, (awaitSessionSchedule env fuel).2 = AwaitOutcome.fetchError e →
      ∃ n, env.fetch n = Except.error e ∧
        ∀ m, m < n → env.ctxDone m = false ∧
          ∃ t, env.fetch m = Except.ok t ∧ t.state.scheduled = none) ∧
    ((∀ n, env.ctxDone n = false ∧
        ∃ t, env.fetch n = Except.ok t ∧ t.state.scheduled = none) →
      ∀ fuel, (awaitSessionSchedule env fuel).2 = AwaitOutcome.pending) := by
  refine ⟨?_, ?_, ?_, ?_⟩
  · intro fuel
    exact awaitFrom_delays env fuel 0 0
  · intro fuel s h
    obtain ⟨n, _, hn2, hn3, hn4⟩ := awaitFrom_scheduled_spec env fuel 0 0 s h
    exact ⟨hn3, n, hn2, fun m hm => hn4 m (Nat.zero_le m) hm⟩
  · intro fuel e h
    obtain ⟨n, _, hn2, hn3⟩ := awaitFrom_fetchError_spec env fuel 0 0 e h
    exact ⟨n, hn2, fun m hm => hn3 m (Nat.zero_le m) hm⟩
  · intro hnever fuel
    exact awaitFrom_pending_spec env hnever fuel 0 0

/-- C6, witness: the first-scheduled-fetch property applied to the
oracle that schedules on its second fetch. -/
theorem awaitSchedule_polling_policy_witness :
    schedSession.state.scheduled.isSome = true ∧
    ∃ n, quickPollEnv.fetch n = Except.ok schedSession ∧
      ∀ m, m < n → quickPollEnv.ctxDone m = false ∧
        ∃ t, quickPollEnv.fetch m = Except.ok t ∧ t.state.scheduled = none :=
  (awaitSchedule_polling_policy quickPollEnv).2.1 2 schedSession (by decide)

/-- C7: upgrade writes only the executor binary — every file write in
its effect trace targets the binary path, so the config file, the token
file and the service unit are untouched — and on full success its trace
is exactly service stop, the three binary writes, service start. -/
theorem upgrade_writes_only_binary (sctl : SystemctlEnv) (dl : DownloadEnv) :
    (∀ t, ExecEffect.write t ∈ (executorUpgradeRun sctl dl).1 → t = FsTarget.binary) ∧
    executorUpgradeRun sctlOk dlOk =
      ([ExecEffect.svcDisable, ExecEffect.svcStop,
        ExecEffect.write FsTarget.binary, ExecEffect.write FsTarget.binary,
        ExecEffect.write FsTarget.binary,
        ExecEffect.svcDaemonReload, ExecEffect.svcEnable, ExecEffect.svcStart], none) := by
  constructor
  · intro t ht
    cases h1 : (stopExecutor sctl).2 with
    | some e =>
      simp only [executorUpgradeRun, h1] at ht
      exact absurd ht (stopExecutor_no_write sctl t)
    | none =>
      cases h2 : (downloadExecutor dl).2 with
      | some e =>
        simp only [executorUpgradeRun, h1, h2, List.mem_append] at ht
        rcases ht with h | h
        · exact absurd h (stopExecutor_no_write sctl t)
        · have hb := downloadExecutor_effects dl _ h
          cases hb; rfl
      | none =>
        simp only [executorUpgradeRun, h1, h2, List.mem_append] at ht
        rcases ht with (h | h) | h
        · exact absurd h (stopExecutor_no_write sctl t)
        · have hb := downloadExecutor_effects dl _ h
          cases hb; rfl
        · exact absurd h (startExecutor_no_write sctl t)
  · decide

/-- C7, witness: the frame property applied to a write that actually
occurs in the all-success upgrade trace. -/
theorem upgrade_writes_only_binary_witness :
    ExecEffect.write FsTarget.binary ∈ (executorUpgradeRun sctlOk dlOk).1 ∧
    FsTarget.binary = FsTarget.binary :=
  ⟨by decide, (upgrade_writes_only_binary sctlOk dlOk).1 FsTarget.binary (by decide)⟩

/-- C8: locating a session's running container fails with the distinct
errors "session not started" (null started timestamp), "session already
ended" (ended set) and "session already finalized" (finalized set), each
with an empty driver-call trace — before any container runtime driver
call — and the three messages are pairwise distinct. -/
theorem findRunningContainer_state_gates (sid : String) (env : FindEnv) (info : Session)
    (hget : env.getRes = Except.ok info) :
    (info.state.started = none →
      findRunningContainer sid env = ([], FindResult.err "session not started")) ∧
    (info.state.started ≠ none → info.state.ended ≠ none →
      findRunningContainer sid env = ([], FindResult.err "session already ended")) ∧
    (info.state.started ≠ none → info.state.ended = none → info.state.finalized ≠ none →
      findRunningContainer sid env = ([], FindResult.err "session already finalized")) ∧
    ("session not started" ≠ "session already ended" ∧
      "session not started" ≠ "session already finalized" ∧
      "session already ended" ≠ "session already finalized") := by
  refine ⟨?_, ?_, ?_, by decide⟩
  · intro h
    simp [findRunningContainer, hget, h]
  · intro h1 h2
    simp [findRunningContainer, hget, h1, h2]
  · intro h1 h2 h3
    simp [findRunningContainer, hget, h1, h2, h3]

/-- C8, witness: session exec against a session whose ended timestamp is
set fails with "session already ended" and no driver call. -/
theorem findRunningContainer_state_gates_witness :
    findRunningContainer "s1" findEndedEnv = ([], FindResult.err "session already ended") :=
  (findRunningContainer_state_gates "s1" findEndedEnv endedSession rfl).2.1
    (by decide) (by decide)

/-- C9: the container spec built for a session has the deterministic
name "session-" followed by the lower-cased session ID, its labels carry
the session ID under the session label and the comma-joined GPU list
under the GPU label, and an empty GPU list yields the empty string. -/
theorem containerSpec_name_and_labels (session : Session) (limits : TaskLimits)
    (image : String) (command : Option (List String)) (u : OSUser) (net : Bool) :
    (buildContainerOpts session limits image command u net).name =
      "session-" ++ session.id.toLower ∧
    (buildContainerOpts session limits image command u net).labels.lookup
      sessionContainerLabel = some session.id ∧
    (buildContainerOpts session limits image command u net).labels.lookup
      sessionGPULabel = some (String.intercalate "," limits.gpus) ∧
    (limits.gpus = [] →
      (buildContainerOpts session limits image command u net).labels.lookup
        sessionGPULabel = some "") := by
  refine ⟨toLower_session_append session.id, rfl, rfl, ?_⟩
  intro h
  simp only [buildContainerOpts, List.lookup, h]
  rfl

/-- C9, witness: the empty-GPU-list clause at a concrete session,
grant, image and user. -/
theorem containerSpec_name_and_labels_witness :
    (buildContainerOpts plainSession noGpuLimits "img" none plainUser false).labels.lookup
      sessionGPULabel = some "" :=
  (containerSpec_name_and_labels plainSession noGpuLimits "img" none plainUser false).2.2.2 rfl

/-- C10: session update issues a patch even without the cancel flag, and
that patch carries a fresh, entirely empty execution state — no
cancellation timestamp — so the invocation is a remote mutation, not a
no-op. -/
theorem sessionUpdate_always_patches (t : Nat) (res : Except String Session) :
    (sessionUpdateRun false t res).1 =
      [UpdateEffect.patch { state := some emptyExecState }] ∧
    (sessionUpdatePatch false t).state = some emptyExecState ∧
    emptyExecState.canceled = none := ⟨rfl, rfl, rfl⟩

end Beaker
